import Mathlib

/-!
Verification development for the MessagePack decoder core (`src/decode.rs`).

The byte source (Rust `R: Read` / `io::Cursor`) is modelled as a cursor over
a list of byte values (`Nat`, each < 256 in well-formed streams).  Fallible
readers return an outcome that is either a value with the advanced cursor,
an `Error` with the advanced cursor, or `panicked`, which models the Rust
abort paths (`unimplemented!()` and `.unwrap()` failure).  Machine integers
are modelled as `Nat`/`Int`; signed reinterpretation is explicit.
-/

namespace Msgpack

/-- A positioned view of a byte stream, as `io::Cursor<&[u8]>`: the data and
the current read position. -/
structure Cursor where
  data : List Nat
  pos : Nat
deriving DecidableEq, Repr

/-- `ReadError` from the source: an unexpected EOF or a wrapped host I/O
error.  A list-backed byte source never raises a host I/O error, so the
`IOError` case is never produced by the model's primitives. -/
inductive ReadError where
  | UnexpectedEOF
  | IOError
deriving DecidableEq, Repr

/-- `MarkerError` from the source. -/
inductive MarkerError where
  | TypeMismatch
  | Unexpected (b : Nat)
deriving DecidableEq, Repr

/-- Detail carried by `std::str::Utf8Error` in the source's rustc era:
`InvalidByte(pos)` or `TooShort`. -/
inductive Utf8Err where
  | InvalidByte (i : Nat)
  | TooShort
deriving DecidableEq, Repr

/-- The decoder's `Error` enum from the source. -/
inductive Error where
  | InvalidMarker (e : MarkerError)
  | InvalidMarkerRead (e : ReadError)
  | InvalidDataRead (e : ReadError)
  | BufferSizeTooSmall (n : Nat)
  | InvalidDataCopy (n : Nat) (e : ReadError)
  | InvalidUtf8 (n : Nat) (e : Utf8Err)
deriving DecidableEq, Repr

/-- Outcome of running a reader: `Ok(value)` with the advanced cursor,
`Err(error)` with the advanced cursor, or a Rust panic
(`unimplemented!()` / `.unwrap()` on `Err`). -/
inductive ROut (α : Type) where
  | ok (val : α) (c : Cursor)
  | err (e : Error) (c : Cursor)
  | panicked
deriving DecidableEq, Repr

/-- Sequencing that models `try!`: errors and panics propagate. -/
def ROut.bind {α β : Type} : ROut α → (α → Cursor → ROut β) → ROut β
  | .ok a c, f => f a c
  | .err e c, _ => .err e c
  | .panicked, _ => .panicked

/-- Post-composition with a pure function on the success value. -/
def ROut.map {α β : Type} (f : α → β) : ROut α → ROut β
  | .ok a c => .ok (f a) c
  | .err e c => .err e c
  | .panicked => .panicked

/-- Whether the outcome is a success. -/
def ROut.isOk {α : Type} : ROut α → Bool
  | .ok _ _ => true
  | _ => false

/-- Read exactly `k` bytes, as byteorder's fixed-width reads on a cursor: on
success the position advances by `k`; when fewer than `k` bytes remain, the
available bytes are consumed and the read fails with `UnexpectedEOF`. -/
def readBytes (c : Cursor) (k : Nat) : Except ReadError (List Nat) × Cursor :=
  let avail := c.data.length - c.pos
  if k ≤ avail then
    (.ok ((c.data.drop c.pos).take k), ⟨c.data, c.pos + k⟩)
  else
    (.error .UnexpectedEOF, ⟨c.data, c.pos + avail⟩)

/-- `io::copy(&mut rd.take(k), dest)` with a destination of capacity at
least `k`: copies `min k available` bytes and returns them with the
advanced cursor.  (A list-backed source produces no host I/O error.) -/
def copyTake (c : Cursor) (k : Nat) : List Nat × Cursor :=
  let n := min k (c.data.length - c.pos)
  ((c.data.drop c.pos).take n, ⟨c.data, c.pos + n⟩)

/-- Big-endian value of a byte list. -/
def beDecode (bs : List Nat) : Nat := bs.foldl (fun a b => a * 256 + b) 0

/-- Reinterpret a `w`-bit unsigned value as the signed value of the same
bit pattern (`val as i8` and friends). -/
def toSigned (w : Nat) (v : Nat) : Int :=
  if v < 2 ^ (w - 1) then (v : Int) else (v : Int) - 2 ^ w

/-- The `Marker` enum from the source, with the embedded payloads of the
fix-family variants. -/
inductive Marker where
  | PositiveFixnum (v : Nat)
  | NegativeFixnum (v : Int)
  | Null
  | True
  | False
  | U8
  | U16
  | U32
  | U64
  | I8
  | I16
  | I32
  | I64
  | F32
  | F64
  | FixedString (n : Nat)
  | Str8
  | Str16
  | Str32
  | Bin8
  | Bin16
  | Bin32
  | FixedArray (n : Nat)
  | Array16
  | Array32
  | FixedMap (n : Nat)
  | Map16
  | Map32
  | FixExt1
  | FixExt2
  | FixExt4
  | FixExt8
  | FixExt16
  | Ext8
  | Ext16
  | Ext32
deriving DecidableEq, Repr

/-- `Marker::from_u64`: the byte-to-tag table.  `0xc1` and values outside
`0x00..=0xff` map to no tag.  The fix-family ranges extract the embedded
payload from the marker bits (`& 0x0f`, `& 0x1f`, `as i8`). -/
def Marker.fromU64 (n : Nat) : Option Marker :=
  if n ≤ 0x7f then some (.PositiveFixnum n)
  else if 0xe0 ≤ n ∧ n ≤ 0xff then some (.NegativeFixnum ((n : Int) - 256))
  else if 0x80 ≤ n ∧ n ≤ 0x8f then some (.FixedMap (n &&& 0x0f))
  else if 0x90 ≤ n ∧ n ≤ 0x9f then some (.FixedArray (n &&& 0x0f))
  else if 0xa0 ≤ n ∧ n ≤ 0xbf then some (.FixedString (n &&& 0x1f))
  else if n = 0xc0 then some .Null
  else if n = 0xc1 then none
  else if n = 0xc2 then some .False
  else if n = 0xc3 then some .True
  else if n = 0xc4 then some .Bin8
  else if n = 0xc5 then some .Bin16
  else if n = 0xc6 then some .Bin32
  else if n = 0xc7 then some .Ext8
  else if n = 0xc8 then some .Ext16
  else if n = 0xc9 then some .Ext32
  else if n = 0xca then some .F32
  else if n = 0xcb then some .F64
  else if n = 0xcc then some .U8
  else if n = 0xcd then some .U16
  else if n = 0xce then some .U32
  else if n = 0xcf then some .U64
  else if n = 0xd0 then some .I8
  else if n = 0xd1 then some .I16
  else if n = 0xd2 then some .I32
  else if n = 0xd3 then some .I64
  else if n = 0xd4 then some .FixExt1
  else if n = 0xd5 then some .FixExt2
  else if n = 0xd6 then some .FixExt4
  else if n = 0xd7 then some .FixExt8
  else if n = 0xd8 then some .FixExt16
  else if n = 0xd9 then some .Str8
  else if n = 0xda then some .Str16
  else if n = 0xdb then some .Str32
  else if n = 0xdc then some .Array16
  else if n = 0xdd then some .Array32
  else if n = 0xde then some .Map16
  else if n = 0xdf then some .Map32
  else none

/-- `read_marker`: read one byte and classify it.  A read failure becomes
`InvalidMarkerRead`, an unmapped byte becomes `InvalidMarker(Unexpected)`. -/
def read_marker (c : Cursor) : ROut Marker :=
  match readBytes c 1 with
  | (.ok bs, c') =>
    match Marker.fromU64 (beDecode bs) with
    | some m => .ok m c'
    | none => .err (.InvalidMarker (.Unexpected (beDecode bs))) c'
  | (.error e, c') => .err (.InvalidMarkerRead e) c'

/-- Body shared by the `make_read_data_fn!`-generated L2 readers: read `k`
bytes, decode them with `f`; a read failure becomes `InvalidDataRead`. -/
def read_data_fn {α : Type} (k : Nat) (f : List Nat → α) (c : Cursor) : ROut α :=
  match readBytes c k with
  | (.ok bs, c') => .ok (f bs) c'
  | (.error e, c') => .err (.InvalidDataRead e) c'

def read_data_u8 : Cursor → ROut Nat := read_data_fn 1 beDecode

def read_data_u16 : Cursor → ROut Nat := read_data_fn 2 beDecode

def read_data_u32 : Cursor → ROut Nat := read_data_fn 4 beDecode

def read_data_u64 : Cursor → ROut Nat := read_data_fn 8 beDecode

def read_data_i8 : Cursor → ROut Int := read_data_fn 1 (fun bs => toSigned 8 (beDecode bs))

def read_data_i16 : Cursor → ROut Int := read_data_fn 2 (fun bs => toSigned 16 (beDecode bs))

def read_data_i32 : Cursor → ROut Int := read_data_fn 4 (fun bs => toSigned 32 (beDecode bs))

def read_data_i64 : Cursor → ROut Int := read_data_fn 8 (fun bs => toSigned 64 (beDecode bs))

/-- `f32` payloads are modelled by their 32-bit big-endian bit pattern;
IEEE arithmetic is not interpreted. -/
def read_data_f32 : Cursor → ROut Nat := read_data_fn 4 beDecode

/-- `f64` payloads are modelled by their 64-bit big-endian bit pattern. -/
def read_data_f64 : Cursor → ROut Nat := read_data_fn 8 beDecode

/-- The `Integer` sum from the source. -/
inductive Integer where
  | U64 (v : Nat)
  | I64 (v : Int)
deriving DecidableEq, Repr

/-- The minimal `Value` sum from the source; strings are the UTF-8 byte
content. -/
inductive Value where
  | Integer (i : Integer)
  | String (s : List Nat)
deriving DecidableEq, Repr

/-- `ExtMeta` from the source. -/
structure ExtMeta where
  typeid : Int
  size : Nat
deriving DecidableEq, Repr

/-- Is `b` a UTF-8 continuation byte (`0x80..=0xbf`)? -/
def utf8Cont (b : Nat) : Bool := 0x80 ≤ b && b ≤ 0xbf

/-- Admissible first continuation byte of a 3-byte sequence (excludes
overlong forms after `0xe0` and surrogates after `0xed`). -/
def utf8Cont3 (b c1 : Nat) : Bool :=
  if b = 0xe0 then 0xa0 ≤ c1 && c1 ≤ 0xbf
  else if b = 0xed then 0x80 ≤ c1 && c1 ≤ 0x9f
  else utf8Cont c1

/-- Admissible first continuation byte of a 4-byte sequence (excludes
overlong forms after `0xf0` and values above U+10FFFF after `0xf4`). -/
def utf8Cont4 (b c1 : Nat) : Bool :=
  if b = 0xf0 then 0x90 ≤ c1 && c1 ≤ 0xbf
  else if b = 0xf4 then 0x80 ≤ c1 && c1 ≤ 0x8f
  else utf8Cont c1

/-- UTF-8 validation, modelling `std::str::from_utf8`: `none` when the
bytes are well-formed UTF-8, otherwise the error detail.  `i` is the index
of the current byte. -/
def utf8CheckFrom : Nat → List Nat → Option Utf8Err
  | _, [] => none
  | i, b :: rest =>
    if b ≤ 0x7f then utf8CheckFrom (i + 1) rest
    else if b < 0xc2 then some (.InvalidByte i)
    else if b ≤ 0xdf then
      match rest with
      | [] => some .TooShort
      | c1 :: rest' =>
        if utf8Cont c1 then utf8CheckFrom (i + 2) rest' else some (.InvalidByte i)
    else if b ≤ 0xef then
      match rest with
      | [] => some .TooShort
      | [c1] => if utf8Cont3 b c1 then some .TooShort else some (.InvalidByte i)
      | c1 :: c2 :: rest' =>
        if utf8Cont3 b c1 && utf8Cont c2 then utf8CheckFrom (i + 3) rest'
        else some (.InvalidByte i)
    else if b ≤ 0xf4 then
      match rest with
      | [] => some .TooShort
      | [c1] => if utf8Cont4 b c1 then some .TooShort else some (.InvalidByte i)
      | [c1, c2] =>
        if utf8Cont4 b c1 && utf8Cont c2 then some .TooShort
        else some (.InvalidByte i)
      | c1 :: c2 :: c3 :: rest' =>
        if utf8Cont4 b c1 && utf8Cont c2 && utf8Cont c3 then utf8CheckFrom (i + 4) rest'
        else some (.InvalidByte i)
    else some (.InvalidByte i)

/-- UTF-8 validation of a whole byte list. -/
def utf8Check (bs : List Nat) : Option Utf8Err := utf8CheckFrom 0 bs

/-- `read_nil`. -/
def read_nil (c : Cursor) : ROut Unit :=
  (read_marker c).bind fun m c1 =>
    match m with
    | .Null => .ok () c1
    | _ => .err (.InvalidMarker .TypeMismatch) c1

/-- `read_bool`. -/
def read_bool (c : Cursor) : ROut Bool :=
  (read_marker c).bind fun m c1 =>
    match m with
    | .True => .ok true c1
    | .False => .ok false c1
    | _ => .err (.InvalidMarker .TypeMismatch) c1

/-- `read_pfix`. -/
def read_pfix (c : Cursor) : ROut Nat :=
  (read_marker c).bind fun m c1 =>
    match m with
    | .PositiveFixnum v => .ok v c1
    | _ => .err (.InvalidMarker .TypeMismatch) c1

/-- `read_nfix`. -/
def read_nfix (c : Cursor) : ROut Int :=
  (read_marker c).bind fun m c1 =>
    match m with
    | .NegativeFixnum v => .ok v c1
    | _ => .err (.InvalidMarker .TypeMismatch) c1

/-- `read_i8` (strict). -/
def read_i8 (c : Cursor) : ROut Int :=
  (read_marker c).bind fun m c1 =>
    match m with
    | .I8 => read_data_i8 c1
    | _ => .err (.InvalidMarker .TypeMismatch) c1

/-- `read_i16` (strict). -/
def read_i16 (c : Cursor) : ROut Int :=
  (read_marker c).bind fun m c1 =>
    match m with
    | .I16 => read_data_i16 c1
    | _ => .err (.InvalidMarker .TypeMismatch) c1

/-- `read_i32` (strict). -/
def read_i32 (c : Cursor) : ROut Int :=
  (read_marker c).bind fun m c1 =>
    match m with
    | .I32 => read_data_i32 c1
    | _ => .err (.InvalidMarker .TypeMismatch) c1

/-- `read_i64` (strict). -/
def read_i64 (c : Cursor) : ROut Int :=
  (read_marker c).bind fun m c1 =>
    match m with
    | .I64 => read_data_i64 c1
    | _ => .err (.InvalidMarker .TypeMismatch) c1

/-- `read_u8` (strict). -/
def read_u8 (c : Cursor) : ROut Nat :=
  (read_marker c).bind fun m c1 =>
    match m with
    | .U8 => read_data_u8 c1
    | _ => .err (.InvalidMarker .TypeMismatch) c1

/-- `read_u16` (strict). -/
def read_u16 (c : Cursor) : ROut Nat :=
  (read_marker c).bind fun m c1 =>
    match m with
    | .U16 => read_data_u16 c1
    | _ => .err (.InvalidMarker .TypeMismatch) c1

/-- `read_u32` (strict). -/
def read_u32 (c : Cursor) : ROut Nat :=
  (read_marker c).bind fun m c1 =>
    match m with
    | .U32 => read_data_u32 c1
    | _ => .err (.InvalidMarker .TypeMismatch) c1

/-- `read_u64` (strict). -/
def read_u64 (c : Cursor) : ROut Nat :=
  (read_marker c).bind fun m c1 =>
    match m with
    | .U64 => read_data_u64 c1
    | _ => .err (.InvalidMarker .TypeMismatch) c1

/-- `read_u64_loosely`: widens PositiveFixnum / U8 / U16 / U32 / U64 to
u64 (identity in the `Nat` model). -/
def read_u64_loosely (c : Cursor) : ROut Nat :=
  (read_marker c).bind fun m c1 =>
    match m with
    | .PositiveFixnum v => .ok v c1
    | .U8 => read_data_u8 c1
    | .U16 => read_data_u16 c1
    | .U32 => read_data_u32 c1
    | .U64 => read_data_u64 c1
    | _ => .err (.InvalidMarker .TypeMismatch) c1

/-- `read_i64_loosely`: widens NegativeFixnum / I8 / I16 / I32 / I64 to
i64 (identity in the `Int` model). -/
def read_i64_loosely (c : Cursor) : ROut Int :=
  (read_marker c).bind fun m c1 =>
    match m with
    | .NegativeFixnum v => .ok v c1
    | .I8 => read_data_i8 c1
    | .I16 => read_data_i16 c1
    | .I32 => read_data_i32 c1
    | .I64 => read_data_i64 c1
    | _ => .err (.InvalidMarker .TypeMismatch) c1

/-- `read_integer`. -/
def read_integer (c : Cursor) : ROut Integer :=
  (read_marker c).bind fun m c1 =>
    match m with
    | .NegativeFixnum v => .ok (.I64 v) c1
    | .I8 => (read_data_i8 c1).map Integer.I64
    | .I16 => (read_data_i16 c1).map Integer.I64
    | .I32 => (read_data_i32 c1).map Integer.I64
    | .I64 => (read_data_i64 c1).map Integer.I64
    | .U64 => (read_data_u64 c1).map Integer.U64
    | _ => .err (.InvalidMarker .TypeMismatch) c1

/-- `read_str_len`. -/
def read_str_len (c : Cursor) : ROut Nat :=
  (read_marker c).bind fun m c1 =>
    match m with
    | .FixedString n => .ok n c1
    | .Str8 => read_data_u8 c1
    | .Str16 => read_data_u16 c1
    | .Str32 => read_data_u32 c1
    | _ => .err (.InvalidMarker .TypeMismatch) c1

/-- The body of `read_str` after `let len = try!(read_str_len(rd))`: the
buffer-size check, the bounded copy, and the UTF-8 validation. -/
def read_str_tail (bufLen len : Nat) (c1 : Cursor) : ROut (List Nat) :=
  if bufLen < len then .err (.BufferSizeTooSmall len) c1
  else
    if ((copyTake c1 len).1).length = len then
      match utf8Check (copyTake c1 len).1 with
      | none => .ok (copyTake c1 len).1 (copyTake c1 len).2
      | some e => .err (.InvalidUtf8 len e) (copyTake c1 len).2
    else .err (.InvalidDataCopy ((copyTake c1 len).1).length .UnexpectedEOF) (copyTake c1 len).2

/-- `read_str`: the destination buffer is modelled by its length; the
returned `&str` is modelled by its UTF-8 byte content. -/
def read_str (c : Cursor) (bufLen : Nat) : ROut (List Nat) :=
  (read_str_len c).bind fun len c1 => read_str_tail bufLen len c1

/-- `read_str_ref`: length-decode at the start of a flat slice, then the
unchecked index `rd[start .. start + len]`, which panics when the range
exceeds the slice. -/
def read_str_ref (rd : List Nat) : ROut (List Nat) :=
  (read_str_len ⟨rd, 0⟩).bind fun len cur =>
    if cur.pos + len ≤ rd.length then .ok ((rd.drop cur.pos).take len) cur
    else .panicked

/-- `read_array_size`.  The source inlines the big-endian u16/u32 reads
with the same `InvalidDataRead` wrapping as the L2 readers. -/
def read_array_size (c : Cursor) : ROut Nat :=
  (read_marker c).bind fun m c1 =>
    match m with
    | .FixedArray n => .ok n c1
    | .Array16 => read_data_u16 c1
    | .Array32 => read_data_u32 c1
    | _ => .err (.InvalidMarker .TypeMismatch) c1

/-- `read_map_size`. -/
def read_map_size (c : Cursor) : ROut Nat :=
  (read_marker c).bind fun m c1 =>
    match m with
    | .FixedMap n => .ok n c1
    | .Map16 => read_data_u16 c1
    | .Map32 => read_data_u32 c1
    | _ => .err (.InvalidMarker .TypeMismatch) c1

/-- `read_f32` (value modelled as the 32-bit pattern). -/
def read_f32 (c : Cursor) : ROut Nat :=
  (read_marker c).bind fun m c1 =>
    match m with
    | .F32 => read_data_f32 c1
    | _ => .err (.InvalidMarker .TypeMismatch) c1

/-- `read_f64` (value modelled as the 64-bit pattern). -/
def read_f64 (c : Cursor) : ROut Nat :=
  (read_marker c).bind fun m c1 =>
    match m with
    | .F64 => read_data_f64 c1
    | _ => .err (.InvalidMarker .TypeMismatch) c1

/-- `read_bin_len`. -/
def read_bin_len (c : Cursor) : ROut Nat :=
  (read_marker c).bind fun m c1 =>
    match m with
    | .Bin8 => read_data_u8 c1
    | .Bin16 => read_data_u16 c1
    | .Bin32 => read_data_u32 c1
    | _ => .err (.InvalidMarker .TypeMismatch) c1

/-- `read_fixext1`. -/
def read_fixext1 (c : Cursor) : ROut (Int × Nat) :=
  (read_marker c).bind fun m c1 =>
    match m with
    | .FixExt1 =>
      (read_data_i8 c1).bind fun id c2 =>
        (read_data_u8 c2).map fun d => (id, d)
    | _ => .err (.InvalidMarker .TypeMismatch) c1

/-- `read_fixext2`. -/
def read_fixext2 (c : Cursor) : ROut (Int × Nat) :=
  (read_marker c).bind fun m c1 =>
    match m with
    | .FixExt2 =>
      (read_data_i8 c1).bind fun id c2 =>
        (read_data_u16 c2).map fun d => (id, d)
    | _ => .err (.InvalidMarker .TypeMismatch) c1

/-- Little-endian value of a byte list (`read_u32::<LittleEndian>`). -/
def leDecode (bs : List Nat) : Nat := bs.foldr (fun b a => b + a * 256) 0

/-- The four bytes of a u32 in little-endian memory order: the effect of
`mem::transmute::<u32, [u8; 4]>` on the little-endian hosts the crate's
own test suite runs on. -/
def leBytes4 (v : Nat) : List Nat :=
  [v % 256, v / 256 % 256, v / 65536 % 256, v / 16777216 % 256]

/-- `read_fixext4`: reads the 4 payload bytes as a little-endian u32, then
reinterprets the u32 as its 4 memory bytes.  The non-`FixExt4` arm is
`unimplemented!()`. -/
def read_fixext4 (c : Cursor) : ROut (Int × List Nat) :=
  (read_marker c).bind fun m c1 =>
    match m with
    | .FixExt4 =>
      (read_data_i8 c1).bind fun id c2 =>
        match readBytes c2 4 with
        | (.ok bs, c3) => .ok (id, leBytes4 (leDecode bs)) c3
        | (.error e, c3) => .err (.InvalidDataRead e) c3
    | _ => .panicked

/-- `read_fixext8`: the non-`FixExt8` arm and the short-copy arm are both
`unimplemented!()`. -/
def read_fixext8 (c : Cursor) : ROut (Int × List Nat) :=
  (read_marker c).bind fun m c1 =>
    match m with
    | .FixExt8 =>
      (read_data_i8 c1).bind fun id c2 =>
        if ((copyTake c2 8).1).length = 8 then .ok (id, (copyTake c2 8).1) (copyTake c2 8).2
        else .panicked
    | _ => .panicked

/-- `read_fixext16`: the non-`FixExt16` arm and the short-copy arm are
both `unimplemented!()`. -/
def read_fixext16 (c : Cursor) : ROut (Int × List Nat) :=
  (read_marker c).bind fun m c1 =>
    match m with
    | .FixExt16 =>
      (read_data_i8 c1).bind fun id c2 =>
        if ((copyTake c2 16).1).length = 16 then .ok (id, (copyTake c2 16).1) (copyTake c2 16).2
        else .panicked
    | _ => .panicked

/-- The `let size = match marker { ... }` block of `read_ext_meta`; the
catch-all arm is `unimplemented!()`. -/
def ext_meta_size (m : Marker) (c1 : Cursor) : ROut Nat :=
  match m with
  | .FixExt1 => .ok 1 c1
  | .FixExt2 => .ok 2 c1
  | .FixExt4 => .ok 4 c1
  | .FixExt8 => .ok 8 c1
  | .FixExt16 => .ok 16 c1
  | .Ext8 => read_data_u8 c1
  | .Ext16 => read_data_u16 c1
  | .Ext32 => read_data_u32 c1
  | _ => .panicked

/-- `read_ext_meta`. -/
def read_ext_meta (c : Cursor) : ROut ExtMeta :=
  (read_marker c).bind fun m c1 =>
    (ext_meta_size m c1).bind fun size c2 =>
      (read_data_i8 c2).map fun typeid => ⟨typeid, size⟩

/-- The Str8 branch of `read_value` after the length byte is read: the
bounded copy, then `String::from_utf8(buf).unwrap()` (panic on invalid
UTF-8); the short-copy and read-failure arms are `unimplemented!()`. -/
def read_value_str8 (len : Nat) (c2 : Cursor) : ROut Value :=
  if ((copyTake c2 len).1).length = len then
    match utf8Check (copyTake c2 len).1 with
    | none => .ok (.String (copyTake c2 len).1) (copyTake c2 len).2
    | some _ => .panicked
  else .panicked

/-- `read_value`: only I32 and Str8 are implemented. -/
def read_value (c : Cursor) : ROut Value :=
  (read_marker c).bind fun m c1 =>
    match m with
    | .I32 => (read_data_i32 c1).map fun v => .Integer (.I64 v)
    | .Str8 => (read_data_u8 c1).bind fun len c2 => read_value_str8 len c2
    | _ => .panicked

/-- Is this error class produced by the marker phase (`InvalidMarker` or
`InvalidMarkerRead`)? -/
def markerErr : Error → Bool
  | .InvalidMarker _ => true
  | .InvalidMarkerRead _ => true
  | _ => false

/-- Error locality at a starting cursor `c`: a marker-read failure or an
unknown-marker error is exactly the error `read_marker` itself produces at
`c` (with the same resulting cursor); a `TypeMismatch` is reported at the
cursor right after a successful marker read; any data-phase error implies
the marker phase succeeded. -/
abbrev LocalityAt (c : Cursor) (e : Error) (c' : Cursor) : Prop :=
  match e with
  | .InvalidMarkerRead e0 => read_marker c = .err (.InvalidMarkerRead e0) c'
  | .InvalidMarker (.Unexpected b) => read_marker c = .err (.InvalidMarker (.Unexpected b)) c'
  | .InvalidMarker .TypeMismatch => ∃ m, read_marker c = .ok m c'
  | _ => (read_marker c).isOk = true

/-- A continuation (the code after a successful marker read) is phase
correct when the only marker-class error it can produce is the
`TypeMismatch` rejection, reported at the post-marker cursor. -/
def ContOK {α : Type} (k : Marker → Cursor → ROut α) : Prop :=
  ∀ m c1 e c', k m c1 = .err e c' →
    (e = .InvalidMarker .TypeMismatch ∧ c' = c1) ∨ markerErr e = false

/-- An outcome whose error, if any, is never marker-class. -/
def DataOnly {α : Type} (x : ROut α) : Prop :=
  ∀ e c', x = .err e c' → markerErr e = false

/-- Marker coverage at byte `b`: every byte except `0xc1` classifies to a
tag and `read_marker` over `[b]` succeeds; `0xc1` fails with
`Unexpected(0xc1)`; the fix-family ranges extract the embedded payload. -/
abbrev MarkerCoverageAt (b : Nat) : Prop :=
  (b ≠ 0xc1 → (Marker.fromU64 b).isSome = true ∧
    read_marker ⟨[b], 0⟩ = .ok ((Marker.fromU64 b).getD .Null) ⟨[b], 1⟩) ∧
  (b = 0xc1 →
    read_marker ⟨[b], 0⟩ = .err (.InvalidMarker (.Unexpected 0xc1)) ⟨[b], 1⟩) ∧
  (b ≤ 0x7f → Marker.fromU64 b = some (.PositiveFixnum b)) ∧
  (0xe0 ≤ b → b ≤ 0xff → Marker.fromU64 b = some (.NegativeFixnum ((b : Int) - 256))) ∧
  (0x80 ≤ b → b ≤ 0x8f → Marker.fromU64 b = some (.FixedMap (b - 0x80))) ∧
  (0x90 ≤ b → b ≤ 0x9f → Marker.fromU64 b = some (.FixedArray (b - 0x90))) ∧
  (0xa0 ≤ b → b ≤ 0xbf → Marker.fromU64 b = some (.FixedString (b - 0xa0)))

/-- Behaviour of `read_u64_loosely` once the marker at `c` decoded to `m`
with post-marker cursor `c1`: the accepted unsigned markers delegate to
the matching L2 read (succeeding exactly when the payload is available);
every other marker is rejected with `TypeMismatch`. -/
abbrev U64LooseAt (c : Cursor) (m : Marker) (c1 : Cursor) : Prop :=
  ((∀ v, m ≠ .PositiveFixnum v) → m ≠ .U8 → m ≠ .U16 → m ≠ .U32 → m ≠ .U64 →
    read_u64_loosely c = .err (.InvalidMarker .TypeMismatch) c1) ∧
  (∀ v, m = .PositiveFixnum v → read_u64_loosely c = .ok v c1) ∧
  (m = .U8 → read_u64_loosely c = read_data_u8 c1 ∧
    ((read_data_u8 c1).isOk = true ↔ c1.pos + 1 ≤ c1.data.length)) ∧
  (m = .U16 → read_u64_loosely c = read_data_u16 c1 ∧
    ((read_data_u16 c1).isOk = true ↔ c1.pos + 2 ≤ c1.data.length)) ∧
  (m = .U32 → read_u64_loosely c = read_data_u32 c1 ∧
    ((read_data_u32 c1).isOk = true ↔ c1.pos + 4 ≤ c1.data.length)) ∧
  (m = .U64 → read_u64_loosely c = read_data_u64 c1 ∧
    ((read_data_u64 c1).isOk = true ↔ c1.pos + 8 ≤ c1.data.length))

/-- Behaviour of `read_integer` once the marker at `c` decoded to `m` with
post-marker cursor `c1`: NegativeFixnum and the signed markers produce
`Integer.I64`, U64 produces `Integer.U64`, and everything else — including
PositiveFixnum, U8, U16, U32 — is rejected with `TypeMismatch`. -/
abbrev IntegerAt (c : Cursor) (m : Marker) (c1 : Cursor) : Prop :=
  ((∀ v, m ≠ .NegativeFixnum v) → m ≠ .I8 → m ≠ .I16 → m ≠ .I32 → m ≠ .I64 →
    m ≠ .U64 → read_integer c = .err (.InvalidMarker .TypeMismatch) c1) ∧
  (∀ v, m = .NegativeFixnum v → read_integer c = .ok (.I64 v) c1) ∧
  (m = .I8 → read_integer c = (read_data_i8 c1).map Integer.I64 ∧
    ((read_data_i8 c1).isOk = true ↔ c1.pos + 1 ≤ c1.data.length)) ∧
  (m = .I16 → read_integer c = (read_data_i16 c1).map Integer.I64 ∧
    ((read_data_i16 c1).isOk = true ↔ c1.pos + 2 ≤ c1.data.length)) ∧
  (m = .I32 → read_integer c = (read_data_i32 c1).map Integer.I64 ∧
    ((read_data_i32 c1).isOk = true ↔ c1.pos + 4 ≤ c1.data.length)) ∧
  (m = .I64 → read_integer c = (read_data_i64 c1).map Integer.I64 ∧
    ((read_data_i64 c1).isOk = true ↔ c1.pos + 8 ≤ c1.data.length)) ∧
  (m = .U64 → read_integer c = (read_data_u64 c1).map Integer.U64 ∧
    ((read_data_u64 c1).isOk = true ↔ c1.pos + 8 ≤ c1.data.length))

end Msgpack

namespace Msgpack

theorem ROut.bind_assoc {α β γ : Type} (x : ROut α) (f : α → Cursor → ROut β)
    (g : β → Cursor → ROut γ) :
    (x.bind f).bind g = x.bind (fun a c => (f a c).bind g) := by
  cases x <;> rfl

theorem ROut.map_bind {α β γ : Type} (x : ROut α) (f : α → Cursor → ROut β) (g : β → γ) :
    (x.bind f).map g = x.bind fun a c => (f a c).map g := by
  cases x <;> rfl

theorem ROut.map_err {α β : Type} {f : α → β} {x : ROut α} {e : Error} {c' : Cursor}
    (h : x.map f = .err e c') : x = .err e c' := by
  cases x <;> simp_all [ROut.map]

theorem ROut.bind_err {α β : Type} {x : ROut α} {f : α → Cursor → ROut β} {e : Error}
    {c' : Cursor} (h : x.bind f = .err e c') :
    x = .err e c' ∨ ∃ a c0, x = .ok a c0 ∧ f a c0 = .err e c' := by
  cases x with
  | ok a c0 => exact Or.inr ⟨a, c0, rfl, h⟩
  | err e0 c0 =>
    simp only [ROut.bind] at h
    injection h with h1 h2
    subst h1
    subst h2
    exact Or.inl rfl
  | panicked => exact absurd h (by simp [ROut.bind])

theorem ROut.bind_ok {α β : Type} {x : ROut α} {f : α → Cursor → ROut β} {v : β}
    {c' : Cursor} (h : x.bind f = .ok v c') :
    ∃ a c0, x = .ok a c0 ∧ f a c0 = .ok v c' := by
  cases x with
  | ok a c0 => exact ⟨a, c0, rfl, h⟩
  | err e0 c0 => exact absurd h (by simp [ROut.bind])
  | panicked => exact absurd h (by simp [ROut.bind])

theorem readBytes_spec (c : Cursor) (k : Nat) :
    readBytes c k =
      if k ≤ c.data.length - c.pos
      then (.ok ((c.data.drop c.pos).take k), ⟨c.data, c.pos + k⟩)
      else (.error .UnexpectedEOF, ⟨c.data, c.pos + (c.data.length - c.pos)⟩) := rfl

theorem copyTake_spec (c : Cursor) (k : Nat) :
    copyTake c k =
      ((c.data.drop c.pos).take (min k (c.data.length - c.pos)),
        ⟨c.data, c.pos + min k (c.data.length - c.pos)⟩) := rfl

theorem read_marker_ok {c : Cursor} {m : Marker} {c1 : Cursor}
    (h : read_marker c = .ok m c1) : c1 = ⟨c.data, c.pos + 1⟩ := by
  unfold read_marker at h
  rw [readBytes_spec] at h
  split at h
  next bs c2 heq =>
    split at heq
    · injection heq with e1 e2
      split at h
      · injection h with f1 f2
        rw [← f2, ← e2]
      · exact absurd h (by simp)
    · exact absurd (congrArg Prod.fst heq) (by simp)
  next e0 c2 heq =>
    exact absurd h (by simp)

theorem read_data_fn_ok {α : Type} {k : Nat} {f : List Nat → α} {c : Cursor} {v : α}
    {c' : Cursor} (h : read_data_fn k f c = .ok v c') : c' = ⟨c.data, c.pos + k⟩ := by
  unfold read_data_fn at h
  rw [readBytes_spec] at h
  split at h
  next bs c2 heq =>
    split at heq
    · injection heq with e1 e2
      injection h with f1 f2
      rw [← f2, ← e2]
    · exact absurd (congrArg Prod.fst heq) (by simp)
  next e0 c2 heq =>
    exact absurd h (by simp)

theorem read_data_fn_err {α : Type} {k : Nat} {f : List Nat → α} {c : Cursor} {e : Error}
    {c' : Cursor} (h : read_data_fn k f c = .err e c') :
    e = .InvalidDataRead .UnexpectedEOF ∧ c'.data = c.data := by
  unfold read_data_fn at h
  rw [readBytes_spec] at h
  split at h
  next bs c2 heq =>
    exact absurd h (by simp)
  next e0 c2 heq =>
    split at heq
    · exact absurd (congrArg Prod.fst heq) (by simp)
    · injection heq with e1 e2
      injection h with f1 f2
      injection e1 with e3
      constructor
      · rw [← f1, ← e3]
      · rw [← f2, ← e2]

theorem read_data_fn_dataOnly {α : Type} (k : Nat) (f : List Nat → α) (c : Cursor) :
    DataOnly (read_data_fn k f c) := by
  intro e c' h
  rw [(read_data_fn_err h).1]
  rfl

theorem read_data_fn_isOk {α : Type} (k : Nat) (f : List Nat → α) (c : Cursor)
    (hk : 1 ≤ k) : (read_data_fn k f c).isOk = true ↔ c.pos + k ≤ c.data.length := by
  unfold read_data_fn
  rw [readBytes_spec]
  by_cases hle : k ≤ c.data.length - c.pos
  · rw [if_pos hle]
    simp only [ROut.isOk, true_iff]
    omega
  · rw [if_neg hle]
    simp only [ROut.isOk, Bool.false_eq_true, false_iff]
    omega

theorem read_marker_cases (c : Cursor) :
    (∃ m c1, read_marker c = .ok m c1) ∨
    (∃ e0 c1, read_marker c = .err (.InvalidMarkerRead e0) c1) ∨
    (∃ b c1, read_marker c = .err (.InvalidMarker (.Unexpected b)) c1) := by
  cases hx : read_marker c with
  | ok m c1 => exact Or.inl ⟨m, c1, rfl⟩
  | err e c1 =>
    unfold read_marker at hx
    split at hx
    next bs c2 =>
      split at hx
      · exact absurd hx (by simp)
      · injection hx with h1 h2
        subst h1
        exact Or.inr (Or.inr ⟨_, c1, rfl⟩)
    next e0 c2 =>
      injection hx with h1 h2
      subst h1
      exact Or.inr (Or.inl ⟨_, c1, rfl⟩)
  | panicked =>
    unfold read_marker at hx
    split at hx
    next bs c2 =>
      split at hx <;> exact absurd hx (by simp)
    next e0 c2 =>
      exact absurd hx (by simp)

theorem locality_of_bind {α : Type} {c : Cursor} {k : Marker → Cursor → ROut α}
    (hk : ContOK k) {e : Error} {c' : Cursor}
    (h : (read_marker c).bind k = .err e c') : LocalityAt c e c' := by
  rcases read_marker_cases c with ⟨m, c1, hm⟩ | ⟨e0, c1, hm⟩ | ⟨b, c1, hm⟩
  · rw [hm] at h
    simp only [ROut.bind] at h
    rcases hk m c1 e c' h with ⟨he, hc⟩ | hd
    · subst he; subst hc
      exact ⟨m, hm⟩
    · cases e with
      | InvalidMarker me => simp [markerErr] at hd
      | InvalidMarkerRead e1 => simp [markerErr] at hd
      | InvalidDataRead e1 => simp [LocalityAt, hm, ROut.isOk]
      | BufferSizeTooSmall n => simp [LocalityAt, hm, ROut.isOk]
      | InvalidDataCopy n e1 => simp [LocalityAt, hm, ROut.isOk]
      | InvalidUtf8 n e1 => simp [LocalityAt, hm, ROut.isOk]
  · rw [hm] at h
    simp only [ROut.bind, ROut.err.injEq] at h
    rw [← h.1, ← h.2]
    exact hm
  · rw [hm] at h
    simp only [ROut.bind, ROut.err.injEq] at h
    rw [← h.1, ← h.2]
    exact hm

end Msgpack

namespace Msgpack

theorem readBytes_at (l : List Nat) (p k : Nat) (h : p + k ≤ l.length) :
    readBytes ⟨l, p⟩ k = (.ok ((l.drop p).take k), ⟨l, p + k⟩) := by
  rw [readBytes_spec]
  dsimp only
  exact if_pos (by omega)

theorem read_data_fn_at {α : Type} (k : Nat) (f : List Nat → α) (l : List Nat) (p : Nat)
    (h : p + k ≤ l.length) :
    read_data_fn k f ⟨l, p⟩ = .ok (f ((l.drop p).take k)) ⟨l, p + k⟩ := by
  unfold read_data_fn
  rw [readBytes_at l p k h]

theorem read_marker_at (l : List Nat) (p b : Nat) (t : List Nat) (h : l.drop p = b :: t) :
    read_marker ⟨l, p⟩ =
      (match Marker.fromU64 b with
       | some m => ROut.ok m ⟨l, p + 1⟩
       | none => ROut.err (.InvalidMarker (.Unexpected b)) ⟨l, p + 1⟩) := by
  unfold read_marker
  rw [readBytes_at l p 1 (by have := congrArg List.length h; simp at this; omega)]
  rw [h]
  norm_num [beDecode]

theorem leBytes4_roundtrip (b0 b1 b2 b3 : Nat) (h0 : b0 < 256) (h1 : b1 < 256)
    (h2 : b2 < 256) (h3 : b3 < 256) :
    leBytes4 (leDecode [b0, b1, b2, b3]) = [b0, b1, b2, b3] := by
  simp only [leDecode, leBytes4, List.foldr]
  refine congrArg₂ _ ?_ (congrArg₂ _ ?_ (congrArg₂ _ ?_ (congrArg₂ _ ?_ rfl))) <;> omega

end Msgpack

namespace Msgpack

set_option maxRecDepth 100000 in
/-- C1: for every byte `b` in `0x00..=0xff` except `0xc1`, `read_marker`
over the one-byte input `[b]` succeeds with the unique tag of the marker
table (embedded payload extracted for the fix-family ranges), and for
`b = 0xc1` it fails with `InvalidMarker(Unexpected(0xc1))`. -/
theorem C1_marker_coverage : ∀ b : Nat, b < 256 → MarkerCoverageAt b :=
  @of_decide_eq_true _
    (@Nat.decidableBallLT 256 (fun b _ => MarkerCoverageAt b) (fun b _ => inferInstance))
    (by rfl)

/-- Witness for C1 at the reserved byte `0xc1`. -/
theorem C1_marker_coverage_witness : (0xc1 : Nat) < 256 ∧ MarkerCoverageAt 0xc1 :=
  ⟨by decide, C1_marker_coverage 0xc1 (by decide)⟩

/-- C2 (failing part): contrary to the claim that every typed reader
rejects a valid-but-foreign marker with `InvalidMarker(TypeMismatch)`,
`read_fixext4`, `read_fixext8`, `read_fixext16`, `read_ext_meta` and
`read_value` panic (`unimplemented!()`) on the valid marker `0xc0`. -/
theorem C2_mismatch_panics :
    read_fixext4 ⟨[0xc0], 0⟩ = .panicked ∧
    read_fixext8 ⟨[0xc0], 0⟩ = .panicked ∧
    read_fixext16 ⟨[0xc0], 0⟩ = .panicked ∧
    read_ext_meta ⟨[0xc0], 0⟩ = .panicked ∧
    read_value ⟨[0xc0], 0⟩ = .panicked := by decide

end Msgpack

namespace Msgpack

set_option maxRecDepth 100000 in
/-- C7: `read_fixext4` on a FixExt4 marker, a type-id byte and 4 payload
bytes returns the type-id as i8 and the 4 payload bytes in source order,
consuming exactly 6 bytes. -/
theorem C7_read_fixext4 :
    ∀ (id b0 b1 b2 b3 : Nat) (rest : List Nat),
      id < 256 → b0 < 256 → b1 < 256 → b2 < 256 → b3 < 256 →
      read_fixext4 ⟨0xd6 :: id :: b0 :: b1 :: b2 :: b3 :: rest, 0⟩ =
        .ok (toSigned 8 id, [b0, b1, b2, b3])
          ⟨0xd6 :: id :: b0 :: b1 :: b2 :: b3 :: rest, 6⟩ := by
  intro id b0 b1 b2 b3 rest hid h0 h1 h2 h3
  have hm : read_marker ⟨0xd6 :: id :: b0 :: b1 :: b2 :: b3 :: rest, 0⟩ =
      .ok .FixExt4 ⟨0xd6 :: id :: b0 :: b1 :: b2 :: b3 :: rest, 1⟩ := rfl
  have hd : read_data_i8 ⟨0xd6 :: id :: b0 :: b1 :: b2 :: b3 :: rest, 1⟩ =
      .ok (toSigned 8 id) ⟨0xd6 :: id :: b0 :: b1 :: b2 :: b3 :: rest, 2⟩ := by
    unfold read_data_i8
    rw [read_data_fn_at 1 _ _ 1 (by simp only [List.length_cons]; omega)]
    norm_num [beDecode, List.foldl]
  have hb : readBytes ⟨0xd6 :: id :: b0 :: b1 :: b2 :: b3 :: rest, 2⟩ 4 =
      (.ok [b0, b1, b2, b3], ⟨0xd6 :: id :: b0 :: b1 :: b2 :: b3 :: rest, 6⟩) := by
    rw [readBytes_at _ 2 4 (by simp only [List.length_cons]; omega)]
    rfl
  unfold read_fixext4
  rw [hm]
  simp only [ROut.bind]
  rw [hd]
  simp only [ROut.bind]
  rw [hb]
  simp only []
  rw [leBytes4_roundtrip b0 b1 b2 b3 h0 h1 h2 h3]

/-- Witness for C7 at a concrete FixExt4 frame. -/
theorem C7_read_fixext4_witness :
    read_fixext4 ⟨[0xd6, 0x01, 0x0a, 0x0b, 0x0c, 0x0d], 0⟩ =
      .ok (toSigned 8 1, [0x0a, 0x0b, 0x0c, 0x0d]) ⟨[0xd6, 0x01, 0x0a, 0x0b, 0x0c, 0x0d], 6⟩ :=
  C7_read_fixext4 1 0x0a 0x0b 0x0c 0x0d [] (by decide) (by decide) (by decide)
    (by decide) (by decide)

set_option maxRecDepth 100000 in
/-- C9: `read_value` on a Str8 frame whose payload is fully available but
not valid UTF-8 panics (`String::from_utf8(buf).unwrap()`) instead of
returning an `InvalidUtf8` error. -/
theorem C9_read_value_str8_panic :
    ∀ (len : Nat) (payload rest : List Nat) (e : Utf8Err),
      len < 256 → payload.length = len → utf8Check payload = some e →
      read_value ⟨0xd9 :: len :: (payload ++ rest), 0⟩ = .panicked := by
  intro len payload rest e hlen hplen hutf
  have hm : read_marker ⟨0xd9 :: len :: (payload ++ rest), 0⟩ =
      .ok .Str8 ⟨0xd9 :: len :: (payload ++ rest), 1⟩ := rfl
  have hd : read_data_u8 ⟨0xd9 :: len :: (payload ++ rest), 1⟩ =
      .ok len ⟨0xd9 :: len :: (payload ++ rest), 2⟩ := by
    unfold read_data_u8
    rw [read_data_fn_at 1 _ _ 1 (by simp only [List.length_cons]; omega)]
    norm_num [beDecode, List.foldl]
  unfold read_value
  rw [hm]
  simp only [ROut.bind]
  rw [hd]
  simp only [ROut.bind]
  unfold read_value_str8
  rw [copyTake_spec]
  dsimp only
  have hmin : min len ((0xd9 :: len :: (payload ++ rest)).length - 2) = len := by
    simp only [List.length_cons, List.length_append]
    omega
  rw [hmin]
  have hdrop : (0xd9 :: len :: (payload ++ rest)).drop 2 = payload ++ rest := rfl
  rw [hdrop]
  have htake : (payload ++ rest).take len = payload := by
    rw [← hplen]
    exact List.take_left payload rest
  rw [htake]
  rw [if_pos hplen]
  rw [hutf]

/-- Witness for C9 at a concrete invalid-UTF-8 Str8 frame. -/
theorem C9_read_value_str8_panic_witness :
    read_value ⟨0xd9 :: 2 :: ([0xc3, 0x28] ++ []), 0⟩ = .panicked :=
  C9_read_value_str8_panic 2 [0xc3, 0x28] [] (.InvalidByte 0) (by decide) (by decide)
    (by decide)

/-- C10: `read_str_ref` performs no bounds check: whenever the decoded
length fits in the flat slice it returns the payload range, and on a slice
whose declared length exceeds the remaining bytes (here a fixstr of
declared length 5 with no payload) the slice indexing panics instead of
returning an error. -/
theorem C10_read_str_ref :
    (∀ (rd : List Nat) (len : Nat) (c1 : Cursor),
       read_str_len ⟨rd, 0⟩ = .ok len c1 → c1.pos + len ≤ rd.length →
       read_str_ref rd = .ok ((rd.drop c1.pos).take len) c1) ∧
    read_str_ref [0xa5] = .panicked := by
  constructor
  · intro rd len c1 h hle
    unfold read_str_ref
    rw [h]
    simp only [ROut.bind]
    rw [if_pos hle]
  · decide

/-- Witness for C10 on a well-formed fixstr slice. -/
theorem C10_read_str_ref_witness :
    read_str_ref [0xa2, 0x61, 0x62] = .ok (([0xa2, 0x61, 0x62].drop 1).take 2) ⟨[0xa2, 0x61, 0x62], 1⟩ :=
  C10_read_str_ref.1 [0xa2, 0x61, 0x62] 2 ⟨[0xa2, 0x61, 0x62], 1⟩ (by decide) (by decide)

end Msgpack

namespace Msgpack

theorem read_str_len_ok_data {c : Cursor} {len : Nat} {c1 : Cursor}
    (h : read_str_len c = .ok len c1) : c1.data = c.data := by
  unfold read_str_len at h
  obtain ⟨m, cm, hm, hk⟩ := ROut.bind_ok h
  have hcm : cm = ⟨c.data, c.pos + 1⟩ := read_marker_ok hm
  cases m <;>
    first
      | (injection hk with h1 h2; rw [← h2, hcm])
      | (have h2 := read_data_fn_ok hk; rw [h2, hcm])
      | simp at hk

/-- C3: when the destination buffer is shorter than the decoded string
length, `read_str` fails with `BufferSizeTooSmall(len)` and the source is
left exactly at the post-length-prefix cursor `c1` (no payload byte is
consumed). -/
theorem C3_buffer_too_small :
    ∀ (data : List Nat) (bufLen len : Nat) (c1 : Cursor),
      read_str_len ⟨data, 0⟩ = .ok len c1 → bufLen < len →
      read_str ⟨data, 0⟩ bufLen = .err (.BufferSizeTooSmall len) c1 ∧ c1.data = data := by
  intro data bufLen len c1 h hlt
  refine ⟨?_, read_str_len_ok_data h⟩
  unfold read_str
  rw [h]
  simp only [ROut.bind]
  unfold read_str_tail
  rw [if_pos hlt]

/-- Witness for C3: a fixstr of length 2 with a 1-byte buffer. -/
theorem C3_buffer_too_small_witness :
    read_str_len ⟨[0xa2, 0x61, 0x62], 0⟩ = .ok 2 ⟨[0xa2, 0x61, 0x62], 1⟩ ∧ 1 < 2 ∧
    (read_str ⟨[0xa2, 0x61, 0x62], 0⟩ 1 = .err (.BufferSizeTooSmall 2) ⟨[0xa2, 0x61, 0x62], 1⟩ ∧
      (⟨[0xa2, 0x61, 0x62], 1⟩ : Cursor).data = [0xa2, 0x61, 0x62]) :=
  ⟨by decide, by decide,
    C3_buffer_too_small [0xa2, 0x61, 0x62] 1 2 ⟨[0xa2, 0x61, 0x62], 1⟩ (by decide) (by decide)⟩

/-- C4: when the declared length is fully available but the payload is not
valid UTF-8 and the buffer is large enough, `read_str` fails with
`InvalidUtf8(len, detail)` and the source advances by exactly the length
prefix plus `len` payload bytes. -/
theorem C4_invalid_utf8 :
    ∀ (data : List Nat) (bufLen len : Nat) (c1 : Cursor) (e : Utf8Err),
      read_str_len ⟨data, 0⟩ = .ok len c1 →
      c1.pos + len ≤ data.length →
      utf8Check ((data.drop c1.pos).take len) = some e →
      len ≤ bufLen →
      read_str ⟨data, 0⟩ bufLen = .err (.InvalidUtf8 len e) ⟨data, c1.pos + len⟩ := by
  intro data bufLen len c1 e h havail hutf hbuf
  have hdata : c1.data = data := read_str_len_ok_data h
  unfold read_str
  rw [h]
  simp only [ROut.bind]
  unfold read_str_tail
  rw [if_neg (by omega)]
  rw [copyTake_spec]
  dsimp only
  rw [hdata]
  have hmin : min len (data.length - c1.pos) = len := by omega
  rw [hmin]
  have hlen2 : ((data.drop c1.pos).take len).length = len := by
    simp only [List.length_take, List.length_drop]
    omega
  rw [if_pos hlen2]
  rw [hutf]

/-- Witness for C4: the crate's own invalid-2-octet-sequence test frame. -/
theorem C4_invalid_utf8_witness :
    read_str_len ⟨[0xa2, 0xc3, 0x28], 0⟩ = .ok 2 ⟨[0xa2, 0xc3, 0x28], 1⟩ ∧
    1 + 2 ≤ 3 ∧
    utf8Check (([0xa2, 0xc3, 0x28].drop 1).take 2) = some (.InvalidByte 0) ∧
    2 ≤ 16 ∧
    read_str ⟨[0xa2, 0xc3, 0x28], 0⟩ 16 = .err (.InvalidUtf8 2 (.InvalidByte 0)) ⟨[0xa2, 0xc3, 0x28], 3⟩ :=
  ⟨by decide, by decide, by decide, by decide,
    C4_invalid_utf8 [0xa2, 0xc3, 0x28] 16 2 ⟨[0xa2, 0xc3, 0x28], 1⟩ (.InvalidByte 0)
      (by decide) (by decide) (by decide) (by decide)⟩

end Msgpack

namespace Msgpack

/-- C6: `read_u64_loosely` succeeds exactly on PositiveFixnum / U8 / U16 /
U32 / U64 (the fixnum payload directly, the rest via the L2 read, which
succeeds exactly when the payload bytes are available), rejects every
other decoded marker with `TypeMismatch`, and propagates marker-phase
errors unchanged. -/
theorem C6_read_u64_loosely :
    (∀ (c : Cursor) (m : Marker) (c1 : Cursor),
       read_marker c = .ok m c1 → U64LooseAt c m c1) ∧
    (∀ (c : Cursor) (e : Error) (c1 : Cursor),
       read_marker c = .err e c1 → read_u64_loosely c = .err e c1) := by
  constructor
  · intro c m c1 hm
    refine ⟨?_, ?_, ?_, ?_, ?_, ?_⟩
    · intro h1 h2 h3 h4 h5
      unfold read_u64_loosely
      rw [hm]
      simp only [ROut.bind]
    · intro v hv
      subst hv
      unfold read_u64_loosely
      rw [hm]
      rfl
    · rintro rfl
      unfold read_u64_loosely
      rw [hm]
      exact ⟨rfl, read_data_fn_isOk 1 _ c1 (by norm_num)⟩
    · rintro rfl
      unfold read_u64_loosely
      rw [hm]
      exact ⟨rfl, read_data_fn_isOk 2 _ c1 (by norm_num)⟩
    · rintro rfl
      unfold read_u64_loosely
      rw [hm]
      exact ⟨rfl, read_data_fn_isOk 4 _ c1 (by norm_num)⟩
    · rintro rfl
      unfold read_u64_loosely
      rw [hm]
      exact ⟨rfl, read_data_fn_isOk 8 _ c1 (by norm_num)⟩
  · intro c e c1 hm
    unfold read_u64_loosely
    rw [hm]
    rfl

/-- Witness for C6 at a concrete U8 frame. -/
theorem C6_read_u64_loosely_witness :
    read_marker ⟨[0xcc, 0x80], 0⟩ = .ok .U8 ⟨[0xcc, 0x80], 1⟩ ∧
    U64LooseAt ⟨[0xcc, 0x80], 0⟩ .U8 ⟨[0xcc, 0x80], 1⟩ :=
  ⟨by decide, C6_read_u64_loosely.1 ⟨[0xcc, 0x80], 0⟩ .U8 ⟨[0xcc, 0x80], 1⟩ (by decide)⟩

/-- C8: `read_integer` accepts exactly NegativeFixnum and I8/I16/I32/I64
(as `Integer.I64`) and U64 (as `Integer.U64`), succeeding exactly when the
payload bytes are available; every other decoded marker — including
PositiveFixnum, U8, U16 and U32 — is rejected with `TypeMismatch`;
marker-phase errors propagate unchanged. -/
theorem C8_read_integer :
    (∀ (c : Cursor) (m : Marker) (c1 : Cursor),
       read_marker c = .ok m c1 → IntegerAt c m c1) ∧
    (∀ (c : Cursor) (e : Error) (c1 : Cursor),
       read_marker c = .err e c1 → read_integer c = .err e c1) := by
  constructor
  · intro c m c1 hm
    refine ⟨?_, ?_, ?_, ?_, ?_, ?_, ?_⟩
    · intro h1 h2 h3 h4 h5 h6
      unfold read_integer
      rw [hm]
      simp only [ROut.bind]
    · intro v hv
      subst hv
      unfold read_integer
      rw [hm]
      rfl
    · rintro rfl
      unfold read_integer
      rw [hm]
      exact ⟨rfl, read_data_fn_isOk 1 _ c1 (by norm_num)⟩
    · rintro rfl
      unfold read_integer
      rw [hm]
      exact ⟨rfl, read_data_fn_isOk 2 _ c1 (by norm_num)⟩
    · rintro rfl
      unfold read_integer
      rw [hm]
      exact ⟨rfl, read_data_fn_isOk 4 _ c1 (by norm_num)⟩
    · rintro rfl
      unfold read_integer
      rw [hm]
      exact ⟨rfl, read_data_fn_isOk 8 _ c1 (by norm_num)⟩
    · rintro rfl
      unfold read_integer
      rw [hm]
      exact ⟨rfl, read_data_fn_isOk 8 _ c1 (by norm_num)⟩
  · intro c e c1 hm
    unfold read_integer
    rw [hm]
    rfl

/-- Witness for C8 at a concrete I8 frame. -/
theorem C8_read_integer_witness :
    read_marker ⟨[0xd0, 0x80], 0⟩ = .ok .I8 ⟨[0xd0, 0x80], 1⟩ ∧
    IntegerAt ⟨[0xd0, 0x80], 0⟩ .I8 ⟨[0xd0, 0x80], 1⟩ :=
  ⟨by decide, C8_read_integer.1 ⟨[0xd0, 0x80], 0⟩ .I8 ⟨[0xd0, 0x80], 1⟩ (by decide)⟩

end Msgpack

namespace Msgpack

theorem ext_meta_size_err {m : Marker} {c1 : Cursor} {e : Error} {c' : Cursor}
    (h : ext_meta_size m c1 = .err e c') : markerErr e = false := by
  cases m <;>
    first
      | (rw [(read_data_fn_err h).1]; rfl)
      | (simp [ext_meta_size] at h)

theorem read_str_tail_err {bufLen len : Nat} {c1 : Cursor} {e : Error} {c' : Cursor}
    (h : read_str_tail bufLen len c1 = .err e c') : markerErr e = false := by
  unfold read_str_tail at h
  split at h
  · injection h with a b
    rw [← a]
    rfl
  · split at h
    · split at h
      · exact absurd h (by simp)
      · injection h with a b
        rw [← a]
        rfl
    · injection h with a b
      rw [← a]
      rfl

theorem read_value_str8_err {len : Nat} {c2 : Cursor} {e : Error} {c' : Cursor}
    (h : read_value_str8 len c2 = .err e c') : False := by
  unfold read_value_str8 at h
  split at h
  · split at h
    · exact absurd h (by simp)
    · exact absurd h (by simp)
  · exact absurd h (by simp)

theorem read_nil_locality : ∀ (c : Cursor) (e : Error) (c' : Cursor),
    read_nil c = .err e c' → LocalityAt c e c' := by
  intro c e c' h
  unfold read_nil at h
  refine locality_of_bind ?_ h
  intro m c1 e0 c0 hK
  cases m <;>
    first
      | (injection hK with a b; exact Or.inl ⟨a.symm, b.symm⟩)
      | (exact Or.inr (by rw [(read_data_fn_err hK).1]; rfl))
      | (simp at hK)

theorem read_bool_locality : ∀ (c : Cursor) (e : Error) (c' : Cursor),
    read_bool c = .err e c' → LocalityAt c e c' := by
  intro c e c' h
  unfold read_bool at h
  refine locality_of_bind ?_ h
  intro m c1 e0 c0 hK
  cases m <;>
    first
      | (injection hK with a b; exact Or.inl ⟨a.symm, b.symm⟩)
      | (exact Or.inr (by rw [(read_data_fn_err hK).1]; rfl))
      | (simp at hK)

theorem read_pfix_locality : ∀ (c : Cursor) (e : Error) (c' : Cursor),
    read_pfix c = .err e c' → LocalityAt c e c' := by
  intro c e c' h
  unfold read_pfix at h
  refine locality_of_bind ?_ h
  intro m c1 e0 c0 hK
  cases m <;>
    first
      | (injection hK with a b; exact Or.inl ⟨a.symm, b.symm⟩)
      | (exact Or.inr (by rw [(read_data_fn_err hK).1]; rfl))
      | (simp at hK)

theorem read_nfix_locality : ∀ (c : Cursor) (e : Error) (c' : Cursor),
    read_nfix c = .err e c' → LocalityAt c e c' := by
  intro c e c' h
  unfold read_nfix at h
  refine locality_of_bind ?_ h
  intro m c1 e0 c0 hK
  cases m <;>
    first
      | (injection hK with a b; exact Or.inl ⟨a.symm, b.symm⟩)
      | (exact Or.inr (by rw [(read_data_fn_err hK).1]; rfl))
      | (simp at hK)

theorem read_i8_locality : ∀ (c : Cursor) (e : Error) (c' : Cursor),
    read_i8 c = .err e c' → LocalityAt c e c' := by
  intro c e c' h
  unfold read_i8 at h
  refine locality_of_bind ?_ h
  intro m c1 e0 c0 hK
  cases m <;>
    first
      | (injection hK with a b; exact Or.inl ⟨a.symm, b.symm⟩)
      | (exact Or.inr (by rw [(read_data_fn_err hK).1]; rfl))
      | (simp at hK)

theorem read_i16_locality : ∀ (c : Cursor) (e : Error) (c' : Cursor),
    read_i16 c = .err e c' → LocalityAt c e c' := by
  intro c e c' h
  unfold read_i16 at h
  refine locality_of_bind ?_ h
  intro m c1 e0 c0 hK
  cases m <;>
    first
      | (injection hK with a b; exact Or.inl ⟨a.symm, b.symm⟩)
      | (exact Or.inr (by rw [(read_data_fn_err hK).1]; rfl))
      | (simp at hK)

theorem read_i32_locality : ∀ (c : Cursor) (e : Error) (c' : Cursor),
    read_i32 c = .err e c' → LocalityAt c e c' := by
  intro c e c' h
  unfold read_i32 at h
  refine locality_of_bind ?_ h
  intro m c1 e0 c0 hK
  cases m <;>
    first
      | (injection hK with a b; exact Or.inl ⟨a.symm, b.symm⟩)
      | (exact Or.inr (by rw [(read_data_fn_err hK).1]; rfl))
      | (simp at hK)

theorem read_i64_locality : ∀ (c : Cursor) (e : Error) (c' : Cursor),
    read_i64 c = .err e c' → LocalityAt c e c' := by
  intro c e c' h
  unfold read_i64 at h
  refine locality_of_bind ?_ h
  intro m c1 e0 c0 hK
  cases m <;>
    first
      | (injection hK with a b; exact Or.inl ⟨a.symm, b.symm⟩)
      | (exact Or.inr (by rw [(read_data_fn_err hK).1]; rfl))
      | (simp at hK)

theorem read_u8_locality : ∀ (c : Cursor) (e : Error) (c' : Cursor),
    read_u8 c = .err e c' → LocalityAt c e c' := by
  intro c e c' h
  unfold read_u8 at h
  refine locality_of_bind ?_ h
  intro m c1 e0 c0 hK
  cases m <;>
    first
      | (injection hK with a b; exact Or.inl ⟨a.symm, b.symm⟩)
      | (exact Or.inr (by rw [(read_data_fn_err hK).1]; rfl))
      | (simp at hK)

theorem read_u16_locality : ∀ (c : Cursor) (e : Error) (c' : Cursor),
    read_u16 c = .err e c' → LocalityAt c e c' := by
  intro c e c' h
  unfold read_u16 at h
  refine locality_of_bind ?_ h
  intro m c1 e0 c0 hK
  cases m <;>
    first
      | (injection hK with a b; exact Or.inl ⟨a.symm, b.symm⟩)
      | (exact Or.inr (by rw [(read_data_fn_err hK).1]; rfl))
      | (simp at hK)

theorem read_u32_locality : ∀ (c : Cursor) (e : Error) (c' : Cursor),
    read_u32 c = .err e c' → LocalityAt c e c' := by
  intro c e c' h
  unfold read_u32 at h
  refine locality_of_bind ?_ h
  intro m c1 e0 c0 hK
  cases m <;>
    first
      | (injection hK with a b; exact Or.inl ⟨a.symm, b.symm⟩)
      | (exact Or.inr (by rw [(read_data_fn_err hK).1]; rfl))
      | (simp at hK)

theorem read_u64_locality : ∀ (c : Cursor) (e : Error) (c' : Cursor),
    read_u64 c = .err e c' → LocalityAt c e c' := by
  intro c e c' h
  unfold read_u64 at h
  refine locality_of_bind ?_ h
  intro m c1 e0 c0 hK
  cases m <;>
    first
      | (injection hK with a b; exact Or.inl ⟨a.symm, b.symm⟩)
      | (exact Or.inr (by rw [(read_data_fn_err hK).1]; rfl))
      | (simp at hK)

end Msgpack

namespace Msgpack

theorem read_f32_locality : ∀ (c : Cursor) (e : Error) (c' : Cursor),
    read_f32 c = .err e c' → LocalityAt c e c' := by
  intro c e c' h
  unfold read_f32 at h
  refine locality_of_bind ?_ h
  intro m c1 e0 c0 hK
  cases m <;>
    first
      | (injection hK with a b; exact Or.inl ⟨a.symm, b.symm⟩)
      | (exact Or.inr (by rw [(read_data_fn_err hK).1]; rfl))
      | (simp at hK)

theorem read_f64_locality : ∀ (c : Cursor) (e : Error) (c' : Cursor),
    read_f64 c = .err e c' → LocalityAt c e c' := by
  intro c e c' h
  unfold read_f64 at h
  refine locality_of_bind ?_ h
  intro m c1 e0 c0 hK
  cases m <;>
    first
      | (injection hK with a b; exact Or.inl ⟨a.symm, b.symm⟩)
      | (exact Or.inr (by rw [(read_data_fn_err hK).1]; rfl))
      | (simp at hK)

theorem read_u64_loosely_locality : ∀ (c : Cursor) (e : Error) (c' : Cursor),
    read_u64_loosely c = .err e c' → LocalityAt c e c' := by
  intro c e c' h
  unfold read_u64_loosely at h
  refine locality_of_bind ?_ h
  intro m c1 e0 c0 hK
  cases m <;>
    first
      | (injection hK with a b; exact Or.inl ⟨a.symm, b.symm⟩)
      | (exact Or.inr (by rw [(read_data_fn_err hK).1]; rfl))
      | (simp at hK)

theorem read_i64_loosely_locality : ∀ (c : Cursor) (e : Error) (c' : Cursor),
    read_i64_loosely c = .err e c' → LocalityAt c e c' := by
  intro c e c' h
  unfold read_i64_loosely at h
  refine locality_of_bind ?_ h
  intro m c1 e0 c0 hK
  cases m <;>
    first
      | (injection hK with a b; exact Or.inl ⟨a.symm, b.symm⟩)
      | (exact Or.inr (by rw [(read_data_fn_err hK).1]; rfl))
      | (simp at hK)

theorem read_integer_locality : ∀ (c : Cursor) (e : Error) (c' : Cursor),
    read_integer c = .err e c' → LocalityAt c e c' := by
  intro c e c' h
  unfold read_integer at h
  refine locality_of_bind ?_ h
  intro m c1 e0 c0 hK
  cases m <;>
    first
      | (injection hK with a b; exact Or.inl ⟨a.symm, b.symm⟩)
      | (exact Or.inr (by rw [(read_data_fn_err (ROut.map_err hK)).1]; rfl))
      | (simp at hK)

theorem read_str_len_locality : ∀ (c : Cursor) (e : Error) (c' : Cursor),
    read_str_len c = .err e c' → LocalityAt c e c' := by
  intro c e c' h
  unfold read_str_len at h
  refine locality_of_bind ?_ h
  intro m c1 e0 c0 hK
  cases m <;>
    first
      | (injection hK with a b; exact Or.inl ⟨a.symm, b.symm⟩)
      | (exact Or.inr (by rw [(read_data_fn_err hK).1]; rfl))
      | (simp at hK)

theorem read_bin_len_locality : ∀ (c : Cursor) (e : Error) (c' : Cursor),
    read_bin_len c = .err e c' → LocalityAt c e c' := by
  intro c e c' h
  unfold read_bin_len at h
  refine locality_of_bind ?_ h
  intro m c1 e0 c0 hK
  cases m <;>
    first
      | (injection hK with a b; exact Or.inl ⟨a.symm, b.symm⟩)
      | (exact Or.inr (by rw [(read_data_fn_err hK).1]; rfl))
      | (simp at hK)

theorem read_array_size_locality : ∀ (c : Cursor) (e : Error) (c' : Cursor),
    read_array_size c = .err e c' → LocalityAt c e c' := by
  intro c e c' h
  unfold read_array_size at h
  refine locality_of_bind ?_ h
  intro m c1 e0 c0 hK
  cases m <;>
    first
      | (injection hK with a b; exact Or.inl ⟨a.symm, b.symm⟩)
      | (exact Or.inr (by rw [(read_data_fn_err hK).1]; rfl))
      | (simp at hK)

theorem read_map_size_locality : ∀ (c : Cursor) (e : Error) (c' : Cursor),
    read_map_size c = .err e c' → LocalityAt c e c' := by
  intro c e c' h
  unfold read_map_size at h
  refine locality_of_bind ?_ h
  intro m c1 e0 c0 hK
  cases m <;>
    first
      | (injection hK with a b; exact Or.inl ⟨a.symm, b.symm⟩)
      | (exact Or.inr (by rw [(read_data_fn_err hK).1]; rfl))
      | (simp at hK)

theorem read_fixext1_locality : ∀ (c : Cursor) (e : Error) (c' : Cursor),
    read_fixext1 c = .err e c' → LocalityAt c e c' := by
  intro c e c' h
  unfold read_fixext1 at h
  refine locality_of_bind ?_ h
  intro m c1 e0 c0 hK
  cases m <;>
    first
      | (injection hK with a b; exact Or.inl ⟨a.symm, b.symm⟩)
      | (rcases ROut.bind_err hK with h' | ⟨a, c2, hx, h'⟩
         · exact Or.inr (by rw [(read_data_fn_err h').1]; rfl)
         · exact Or.inr (by rw [(read_data_fn_err (ROut.map_err h')).1]; rfl))
      | (simp at hK)

theorem read_fixext2_locality : ∀ (c : Cursor) (e : Error) (c' : Cursor),
    read_fixext2 c = .err e c' → LocalityAt c e c' := by
  intro c e c' h
  unfold read_fixext2 at h
  refine locality_of_bind ?_ h
  intro m c1 e0 c0 hK
  cases m <;>
    first
      | (injection hK with a b; exact Or.inl ⟨a.symm, b.symm⟩)
      | (rcases ROut.bind_err hK with h' | ⟨a, c2, hx, h'⟩
         · exact Or.inr (by rw [(read_data_fn_err h').1]; rfl)
         · exact Or.inr (by rw [(read_data_fn_err (ROut.map_err h')).1]; rfl))
      | (simp at hK)

theorem read_fixext4_locality : ∀ (c : Cursor) (e : Error) (c' : Cursor),
    read_fixext4 c = .err e c' → LocalityAt c e c' := by
  intro c e c' h
  unfold read_fixext4 at h
  refine locality_of_bind ?_ h
  intro m c1 e0 c0 hK
  cases m <;>
    first
      | (rcases ROut.bind_err hK with h' | ⟨a, c2, hx, h'⟩
         · exact Or.inr (by rw [(read_data_fn_err h').1]; rfl)
         · split at h'
           · exact absurd h' (by simp)
           · injection h' with a2 b2
             exact Or.inr (by rw [← a2]; rfl))
      | (simp at hK)

theorem read_fixext8_locality : ∀ (c : Cursor) (e : Error) (c' : Cursor),
    read_fixext8 c = .err e c' → LocalityAt c e c' := by
  intro c e c' h
  unfold read_fixext8 at h
  refine locality_of_bind ?_ h
  intro m c1 e0 c0 hK
  cases m <;>
    first
      | (rcases ROut.bind_err hK with h' | ⟨a, c2, hx, h'⟩
         · exact Or.inr (by rw [(read_data_fn_err h').1]; rfl)
         · split at h' <;> exact absurd h' (by simp))
      | (simp at hK)

theorem read_fixext16_locality : ∀ (c : Cursor) (e : Error) (c' : Cursor),
    read_fixext16 c = .err e c' → LocalityAt c e c' := by
  intro c e c' h
  unfold read_fixext16 at h
  refine locality_of_bind ?_ h
  intro m c1 e0 c0 hK
  cases m <;>
    first
      | (rcases ROut.bind_err hK with h' | ⟨a, c2, hx, h'⟩
         · exact Or.inr (by rw [(read_data_fn_err h').1]; rfl)
         · split at h' <;> exact absurd h' (by simp))
      | (simp at hK)

theorem read_ext_meta_locality : ∀ (c : Cursor) (e : Error) (c' : Cursor),
    read_ext_meta c = .err e c' → LocalityAt c e c' := by
  intro c e c' h
  unfold read_ext_meta at h
  refine locality_of_bind ?_ h
  intro m c1 e0 c0 hK
  rcases ROut.bind_err hK with h' | ⟨sz, c2, hx, h'⟩
  · exact Or.inr (ext_meta_size_err h')
  · exact Or.inr (by rw [(read_data_fn_err (ROut.map_err h')).1]; rfl)

theorem read_value_locality : ∀ (c : Cursor) (e : Error) (c' : Cursor),
    read_value c = .err e c' → LocalityAt c e c' := by
  intro c e c' h
  unfold read_value at h
  refine locality_of_bind ?_ h
  intro m c1 e0 c0 hK
  cases m <;>
    first
      | (rcases ROut.bind_err hK with h' | ⟨len2, c2, hx, h'⟩
         · exact Or.inr (by rw [(read_data_fn_err h').1]; rfl)
         · exact (read_value_str8_err h').elim)
      | (exact Or.inr (by rw [(read_data_fn_err (ROut.map_err hK)).1]; rfl))
      | (simp at hK)

theorem read_str_locality : ∀ (bufLen : Nat) (c : Cursor) (e : Error) (c' : Cursor),
    read_str c bufLen = .err e c' → LocalityAt c e c' := by
  intro bufLen c e c' h
  unfold read_str read_str_len at h
  rw [ROut.bind_assoc] at h
  refine locality_of_bind ?_ h
  intro m c1 e0 c0 hK
  cases m <;>
    first
      | (rcases ROut.bind_err hK with h' | ⟨len2, c2, hx, h'⟩
         · injection h'
         · exact Or.inr (read_str_tail_err h'))
      | (rcases ROut.bind_err hK with h' | ⟨len2, c2, hx, h'⟩
         · injection h' with a b
           exact Or.inl ⟨a.symm, b.symm⟩
         · exact Or.inr (read_str_tail_err h'))
      | (rcases ROut.bind_err hK with h' | ⟨len2, c2, hx, h'⟩
         · exact Or.inr (by rw [(read_data_fn_err h').1]; rfl)
         · exact Or.inr (read_str_tail_err h'))

theorem read_str_ref_locality : ∀ (rd : List Nat) (e : Error) (c' : Cursor),
    read_str_ref rd = .err e c' → LocalityAt ⟨rd, 0⟩ e c' := by
  intro rd e c' h
  unfold read_str_ref read_str_len at h
  rw [ROut.bind_assoc] at h
  refine locality_of_bind ?_ h
  intro m c1 e0 c0 hK
  cases m <;>
    first
      | (rcases ROut.bind_err hK with h' | ⟨len2, c2, hx, h'⟩
         · injection h'
         · split at h' <;> exact absurd h' (by simp))
      | (rcases ROut.bind_err hK with h' | ⟨len2, c2, hx, h'⟩
         · injection h' with a b
           exact Or.inl ⟨a.symm, b.symm⟩
         · split at h' <;> exact absurd h' (by simp))
      | (rcases ROut.bind_err hK with h' | ⟨len2, c2, hx, h'⟩
         · exact Or.inr (by rw [(read_data_fn_err h').1]; rfl)
         · split at h' <;> exact absurd h' (by simp))

end Msgpack

namespace Msgpack

/-- C5: error locality across every reader: a marker-class error
(`InvalidMarkerRead`, `InvalidMarker`) reported by any reader is exactly
the outcome of `read_marker` on the marker byte (`TypeMismatch` at the
post-marker cursor of a successfully decoded marker), and a data-class
error (`InvalidDataRead`, `InvalidDataCopy`, `InvalidUtf8`,
`BufferSizeTooSmall`) arises only after the marker phase succeeded; no
reader relabels an error of one phase as the other. -/
theorem C5_error_locality :
    (∀ (c : Cursor) (e : Error) (c' : Cursor), read_nil c = .err e c' → LocalityAt c e c') ∧
    (∀ (c : Cursor) (e : Error) (c' : Cursor), read_bool c = .err e c' → LocalityAt c e c') ∧
    (∀ (c : Cursor) (e : Error) (c' : Cursor), read_pfix c = .err e c' → LocalityAt c e c') ∧
    (∀ (c : Cursor) (e : Error) (c' : Cursor), read_nfix c = .err e c' → LocalityAt c e c') ∧
    (∀ (c : Cursor) (e : Error) (c' : Cursor), read_u8 c = .err e c' → LocalityAt c e c') ∧
    (∀ (c : Cursor) (e : Error) (c' : Cursor), read_u16 c = .err e c' → LocalityAt c e c') ∧
    (∀ (c : Cursor) (e : Error) (c' : Cursor), read_u32 c = .err e c' → LocalityAt c e c') ∧
    (∀ (c : Cursor) (e : Error) (c' : Cursor), read_u64 c = .err e c' → LocalityAt c e c') ∧
    (∀ (c : Cursor) (e : Error) (c' : Cursor), read_i8 c = .err e c' → LocalityAt c e c') ∧
    (∀ (c : Cursor) (e : Error) (c' : Cursor), read_i16 c = .err e c' → LocalityAt c e c') ∧
    (∀ (c : Cursor) (e : Error) (c' : Cursor), read_i32 c = .err e c' → LocalityAt c e c') ∧
    (∀ (c : Cursor) (e : Error) (c' : Cursor), read_i64 c = .err e c' → LocalityAt c e c') ∧
    (∀ (c : Cursor) (e : Error) (c' : Cursor), read_f32 c = .err e c' → LocalityAt c e c') ∧
    (∀ (c : Cursor) (e : Error) (c' : Cursor), read_f64 c = .err e c' → LocalityAt c e c') ∧
    (∀ (c : Cursor) (e : Error) (c' : Cursor), read_u64_loosely c = .err e c' → LocalityAt c e c') ∧
    (∀ (c : Cursor) (e : Error) (c' : Cursor), read_i64_loosely c = .err e c' → LocalityAt c e c') ∧
    (∀ (c : Cursor) (e : Error) (c' : Cursor), read_integer c = .err e c' → LocalityAt c e c') ∧
    (∀ (c : Cursor) (e : Error) (c' : Cursor), read_str_len c = .err e c' → LocalityAt c e c') ∧
    (∀ (c : Cursor) (e : Error) (c' : Cursor), read_bin_len c = .err e c' → LocalityAt c e c') ∧
    (∀ (c : Cursor) (e : Error) (c' : Cursor), read_array_size c = .err e c' → LocalityAt c e c') ∧
    (∀ (c : Cursor) (e : Error) (c' : Cursor), read_map_size c = .err e c' → LocalityAt c e c') ∧
    (∀ (c : Cursor) (e : Error) (c' : Cursor), read_fixext1 c = .err e c' → LocalityAt c e c') ∧
    (∀ (c : Cursor) (e : Error) (c' : Cursor), read_fixext2 c = .err e c' → LocalityAt c e c') ∧
    (∀ (c : Cursor) (e : Error) (c' : Cursor), read_fixext4 c = .err e c' → LocalityAt c e c') ∧
    (∀ (c : Cursor) (e : Error) (c' : Cursor), read_fixext8 c = .err e c' → LocalityAt c e c') ∧
    (∀ (c : Cursor) (e : Error) (c' : Cursor), read_fixext16 c = .err e c' → LocalityAt c e c') ∧
    (∀ (c : Cursor) (e : Error) (c' : Cursor), read_ext_meta c = .err e c' → LocalityAt c e c') ∧
    (∀ (c : Cursor) (e : Error) (c' : Cursor), read_value c = .err e c' → LocalityAt c e c') ∧
    (∀ (bufLen : Nat) (c : Cursor) (e : Error) (c' : Cursor),
       read_str c bufLen = .err e c' → LocalityAt c e c') ∧
    (∀ (rd : List Nat) (e : Error) (c' : Cursor),
       read_str_ref rd = .err e c' → LocalityAt ⟨rd, 0⟩ e c') :=
  ⟨read_nil_locality, read_bool_locality, read_pfix_locality, read_nfix_locality,
    read_u8_locality, read_u16_locality, read_u32_locality, read_u64_locality,
    read_i8_locality, read_i16_locality, read_i32_locality, read_i64_locality,
    read_f32_locality, read_f64_locality, read_u64_loosely_locality,
    read_i64_loosely_locality, read_integer_locality, read_str_len_locality,
    read_bin_len_locality, read_array_size_locality, read_map_size_locality,
    read_fixext1_locality, read_fixext2_locality, read_fixext4_locality,
    read_fixext8_locality, read_fixext16_locality, read_ext_meta_locality,
    read_value_locality, read_str_locality, read_str_ref_locality⟩

/-- Witness for C5: the unknown-marker error of `read_nil` on `[0xc1]` is
exactly the `read_marker` outcome at that cursor. -/
theorem C5_error_locality_witness :
    LocalityAt ⟨[0xc1], 0⟩ (.InvalidMarker (.Unexpected 0xc1)) ⟨[0xc1], 1⟩ :=
  C5_error_locality.1 ⟨[0xc1], 0⟩ (.InvalidMarker (.Unexpected 0xc1)) ⟨[0xc1], 1⟩ (by decide)

end Msgpack
